import Mathlib

/-!
Verification of the MarketSenseAI analysis-orchestration core against its
natural-language specification.  The Python source is shallowly embedded:
pure computation becomes Lean functions over `ℚ` (Python floats are modelled
as exact rationals, as the spec states the arithmetic identities exactly),
dictionaries become structures with `Option` fields (`None` meaning the key
is absent, mirroring `dict.get(key, default)`), fallible code returns
`Except String`, and the conversation cache is an association list threaded
explicitly.  External collaborators (HTTP clients, the language model, the
translation/TTS services, chromadb) are parameters of the embedded
functions; where their behaviour matters it is modelled from the
specification and marked as such in the doc comment.
-/

set_option maxHeartbeats 1000000
set_option maxRecDepth 100000

namespace MarketSense

/-! ## Enumerations

The module `src/config/constants.py` is not under `src/`; the enum values
below are modelled from the spec (§3) and from the literal strings used in
`synthesis_agent.py` and `analysis_service.py`. -/

/-- Modelled from the spec: risk-level enum `very_low|low|medium|high|very_high`. -/
inductive RiskLevel where
  | very_low | low | medium | high | very_high
deriving DecidableEq, Repr, Inhabited

/-- Modelled from the spec: market-outlook enum. -/
inductive MarketOutlook where
  | extremely_bearish | bearish | neutral | bullish | extremely_bullish
deriving DecidableEq, Repr, Inhabited

/-- Modelled from the spec: trading-action enum. -/
inductive TradingAction where
  | strong_buy | buy | hold | sell | strong_sell | wait
deriving DecidableEq, Repr, Inhabited

/-- Python `MarketOutlook(value)`: `none` models the `ValueError` raised on an
unknown value. -/
def MarketOutlook.ofString : String → Option MarketOutlook
  | "extremely_bearish" => some .extremely_bearish
  | "bearish" => some .bearish
  | "neutral" => some .neutral
  | "bullish" => some .bullish
  | "extremely_bullish" => some .extremely_bullish
  | _ => none

def MarketOutlook.value : MarketOutlook → String
  | .extremely_bearish => "extremely_bearish"
  | .bearish => "bearish"
  | .neutral => "neutral"
  | .bullish => "bullish"
  | .extremely_bullish => "extremely_bullish"

/-- Python `TradingAction(value)`. -/
def TradingAction.ofString : String → Option TradingAction
  | "strong_buy" => some .strong_buy
  | "buy" => some .buy
  | "hold" => some .hold
  | "sell" => some .sell
  | "strong_sell" => some .strong_sell
  | "wait" => some .wait
  | _ => none

def TradingAction.value : TradingAction → String
  | .strong_buy => "strong_buy"
  | .buy => "buy"
  | .hold => "hold"
  | .sell => "sell"
  | .strong_sell => "strong_sell"
  | .wait => "wait"

def RiskLevel.value : RiskLevel → String
  | .very_low => "very_low"
  | .low => "low"
  | .medium => "medium"
  | .high => "high"
  | .very_high => "very_high"

/-! ## Domain entities (`src/domain/entities/analysis.py`) -/

/-- Embeds the dataclass `AgentAnalysis`.  `detailed_analysis : Dict[str, Any]`
is modelled as a string map; `timestamp` as rational minutes. -/
structure AgentAnalysis where
  agent_name : String
  summary : String
  confidence : ℚ
  key_factors : List String := []
  data_sources : List String := []
  detailed_analysis : List (String × String) := []
  timestamp : ℚ := 0
deriving DecidableEq, Repr, Inhabited

/-- Embeds the dataclass `Analysis` (its fields; validation is
`analysisPostInit`).  Datetimes are rational minutes; `metadata` is elided
since no code path read by the claims touches it. -/
structure Analysis where
  query : String
  asset_symbol : String
  executive_summary : String
  investment_thesis : String
  outlook : MarketOutlook
  overall_confidence : ℚ
  risk_level : RiskLevel
  risk_score : ℚ
  trading_action : TradingAction
  position_sizing : String
  entry_points : List ℚ := []
  stop_loss : Option ℚ := none
  take_profit : Option ℚ := none
  time_horizon : String := "medium"
  bullish_factors : List String := []
  bearish_factors : List String := []
  critical_factors : List String := []
  key_risks : List String := []
  risk_mitigations : List String := []
  macro_analysis : Option AgentAnalysis := none
  technical_analysis : Option AgentAnalysis := none
  sentiment_analysis : Option AgentAnalysis := none
  created_at : ℚ := 0
  updated_at : ℚ := 0
deriving DecidableEq, Repr

instance : Inhabited Analysis :=
  ⟨{ query := "", asset_symbol := "", executive_summary := "",
     investment_thesis := "", outlook := .neutral, overall_confidence := 1/2,
     risk_level := .medium, risk_score := 1/2, trading_action := .hold,
     position_sizing := "small" }⟩

/-- Embeds `Analysis.__post_init__`: constructing an `Analysis` raises
`ValueError` unless `0 <= overall_confidence <= 1` and `0 <= risk_score <= 1`.
An `Except.error` models the raised exception. -/
def analysisPostInit (a : Analysis) : Except String Analysis :=
  if ¬ (0 ≤ a.overall_confidence ∧ a.overall_confidence ≤ 1) then
    .error "Confidence must be between 0 and 1"
  else if ¬ (0 ≤ a.risk_score ∧ a.risk_score ≤ 1) then
    .error "Risk score must be between 0 and 1"
  else
    .ok a

/-! ## Synthesis agent (`src/application/agents/synthesis_agent.py`) -/

/-- Embeds the opinion dictionary each specialist agent returns.  `Option`
fields model dictionary keys that may be absent (`d.get(key, default)`
becomes `field.getD default`). -/
structure OpinionDict where
  agent_name : Option String := none
  summary : Option String := none
  confidence : Option ℚ := none
  key_factors : Option (List String) := none
  data_sources : Option (List String) := none
  detailed_analysis : Option (List (String × String)) := none
  error : Option String := none
deriving DecidableEq, Repr, Inhabited

/-- Embeds lines 91 through 93 of `synthesis_agent.py`: after
asyncio.gather with return_exceptions=True, a branch result that is an
exception is replaced by the dictionary with only the key `error` holding
the exception message. -/
def wrapGatherResult : Except String OpinionDict → OpinionDict
  | .ok d => d
  | .error e => { error := some e }

/-- Embeds `result.get("confidence", 0.5)`. -/
def opinionConfidence (d : OpinionDict) : ℚ :=
  d.confidence.getD (1/2)

/-- Embeds the `confidences` list of `SynthesisAgent.analyze` (lines 133
through 137). -/
def synthesisConfidences (m t s : OpinionDict) : List ℚ :=
  [opinionConfidence m, opinionConfidence t, opinionConfidence s]

/-- Embeds `overall_confidence = sum(confidences) / len(confidences)`. -/
def overallConfidence (m t s : OpinionDict) : ℚ :=
  (synthesisConfidences m t s).sum / ((synthesisConfidences m t s).length : ℚ)

/-- Embeds `SynthesisAgent._get_risk_level`. -/
def getRiskLevel (risk_score : ℚ) : RiskLevel :=
  if risk_score < 0.2 then .very_low
  else if risk_score < 0.4 then .low
  else if risk_score < 0.6 then .medium
  else if risk_score < 0.8 then .high
  else .very_high

/-- Embeds the parsed synthesis-LLM dictionary consumed by
`SynthesisAgent.analyze` (each key may be absent). -/
structure SynthesisOutput where
  executive_summary : Option String := none
  investment_thesis : Option String := none
  outlook : Option String := none
  trading_action : Option String := none
  position_sizing : Option String := none
  entry_points : Option (List ℚ) := none
  stop_loss : Option ℚ := none
  time_horizon : Option String := none
  bullish_factors : Option (List String) := none
  bearish_factors : Option (List String) := none
  critical_factors : Option (List String) := none
  key_risks : Option (List String) := none
  risk_mitigations : Option (List String) := none
  confidence : Option ℚ := none
deriving DecidableEq, Repr, Inhabited

/-- Embeds the `AgentAnalysis(...)` constructions of lines 105 through 130 of
`synthesis_agent.py`. -/
def mkAgentAnalysis (defaultName : String) (d : OpinionDict) (now : ℚ) : AgentAnalysis :=
  { agent_name := d.agent_name.getD defaultName
    summary := d.summary.getD ""
    confidence := d.confidence.getD (1/2)
    key_factors := d.key_factors.getD []
    data_sources := d.data_sources.getD []
    detailed_analysis := d.detailed_analysis.getD []
    timestamp := now }

/-- Embeds the tail of `SynthesisAgent.analyze` (lines 91 through 168): error
wrapping of the three gathered branch results, the confidence average, the
risk score, and the construction of the final `Analysis` (enum conversion and
`__post_init__` may raise, modelled by `Except.error`).  The three branch
results and the parsed synthesis-LLM output are parameters. -/
def synthesisBuild (query asset_symbol : String)
    (macroRes techRes sentRes : Except String OpinionDict)
    (synth : SynthesisOutput) (now : ℚ) : Except String Analysis :=
  let m := wrapGatherResult macroRes
  let t := wrapGatherResult techRes
  let s := wrapGatherResult sentRes
  let oc := overallConfidence m t s
  let rs := 1 - oc
  match MarketOutlook.ofString (synth.outlook.getD "neutral") with
  | none => .error "ValueError: invalid MarketOutlook"
  | some outlook =>
    match TradingAction.ofString (synth.trading_action.getD "hold") with
    | none => .error "ValueError: invalid TradingAction"
    | some action =>
      analysisPostInit
        { query := query
          asset_symbol := asset_symbol
          executive_summary := synth.executive_summary.getD ""
          investment_thesis := synth.investment_thesis.getD ""
          outlook := outlook
          overall_confidence := oc
          risk_level := getRiskLevel rs
          risk_score := rs
          trading_action := action
          position_sizing := synth.position_sizing.getD "small"
          entry_points := synth.entry_points.getD []
          stop_loss := synth.stop_loss
          time_horizon := synth.time_horizon.getD "medium"
          bullish_factors := synth.bullish_factors.getD []
          bearish_factors := synth.bearish_factors.getD []
          critical_factors := synth.critical_factors.getD []
          key_risks := synth.key_risks.getD []
          risk_mitigations := synth.risk_mitigations.getD []
          macro_analysis := some (mkAgentAnalysis "Macro Analyst" m now)
          technical_analysis := some (mkAgentAnalysis "Technical Analyst" t now)
          sentiment_analysis := some (mkAgentAnalysis "Sentiment Analyst" s now)
          created_at := now
          updated_at := now }

/-- Total accessor for an `Except`-wrapped analysis, used by witnesses. -/
def exceptGetAnalysis : Except String Analysis → Analysis
  | .ok a => a
  | .error _ => default

/-! ### Fan-out/fan-in event model

`SynthesisAgent.analyze` launches the three specialist branches and awaits
them with a single asyncio.gather (line 85): the `await` resumes only once
every branch has completed (successfully or with an exception captured as a
value), and the synthesis LLM call (`_synthesize_results`, line 96) is only
issued afterwards.  The branches complete in an arbitrary order, so the run
is modelled as a trace parameterised by a permutation of the branches. -/

inductive Branch where
  | macroB | techB | sentB
deriving DecidableEq, Repr

inductive SynthEvent where
  | complete (b : Branch)
  | llmSynthesisCall
deriving DecidableEq, Repr

def allBranches : List Branch := [.macroB, .techB, .sentB]

/-- Event trace of one `SynthesisAgent.analyze` run, given the order in which
the three gathered branches complete. -/
def gatherTrace (order : List Branch) : List SynthEvent :=
  order.map SynthEvent.complete ++ [SynthEvent.llmSynthesisCall]

/-! ## Association-list model of Python dictionaries

`AnalysisService._analysis_cache` and the RAG collection registry are Python
dicts; they are modelled as association lists with unique keys.  `setA`
replaces the value in place when the key is present (as dict assignment
does), `eraseA` models `del`, `lookupA` models subscription / `in`. -/

def lookupA {E : Type} (k : String) : List (String × E) → Option E
  | [] => none
  | (k₁, v) :: rest => if k₁ = k then some v else lookupA k rest

def setA {E : Type} (k : String) (v : E) : List (String × E) → List (String × E)
  | [] => [(k, v)]
  | (k₁, v₁) :: rest => if k₁ = k then (k, v) :: rest else (k₁, v₁) :: setA k v rest

def eraseA {E : Type} (k : String) : List (String × E) → List (String × E)
  | [] => []
  | (k₁, v₁) :: rest => if k₁ = k then rest else (k₁, v₁) :: eraseA k rest

/-! ## Analysis service (`src/application/services/analysis_service.py`) -/

/-- Embeds the dictionary produced by `Analysis.to_dict` restricted to the
fields the cache-rehydration loop can write back (`to_dict` also emits the
enum/datetime/nested fields, but `_create_analysis_from_cache` skips those
via `skip_fields`, so they are carried here only to mirror the dictionary
faithfully). -/
structure AnalysisDictModel where
  query : String
  asset_symbol : String
  executive_summary : String
  investment_thesis : String
  outlook : String
  overall_confidence : ℚ
  risk_level : String
  risk_score : ℚ
  trading_action : String
  position_sizing : String
  entry_points : List ℚ
  stop_loss : Option ℚ
  take_profit : Option ℚ
  time_horizon : String
  bullish_factors : List String
  bearish_factors : List String
  critical_factors : List String
  key_risks : List String
  risk_mitigations : List String
  macro_analysis : Option AgentAnalysis
  technical_analysis : Option AgentAnalysis
  sentiment_analysis : Option AgentAnalysis
  created_at : ℚ
  updated_at : ℚ
deriving DecidableEq, Repr

/-- Embeds `Analysis.to_dict`. -/
def Analysis.toDictModel (a : Analysis) : AnalysisDictModel :=
  { query := a.query
    asset_symbol := a.asset_symbol
    executive_summary := a.executive_summary
    investment_thesis := a.investment_thesis
    outlook := a.outlook.value
    overall_confidence := a.overall_confidence
    risk_level := a.risk_level.value
    risk_score := a.risk_score
    trading_action := a.trading_action.value
    position_sizing := a.position_sizing
    entry_points := a.entry_points
    stop_loss := a.stop_loss
    take_profit := a.take_profit
    time_horizon := a.time_horizon
    bullish_factors := a.bullish_factors
    bearish_factors := a.bearish_factors
    critical_factors := a.critical_factors
    key_risks := a.key_risks
    risk_mitigations := a.risk_mitigations
    macro_analysis := a.macro_analysis
    technical_analysis := a.technical_analysis
    sentiment_analysis := a.sentiment_analysis
    created_at := a.created_at
    updated_at := a.updated_at }

/-- Embeds the write-back loop of `_create_analysis_from_cache` (lines 316
through 327): every key of `analysis_dict` that is an attribute of the new
`Analysis` and is not in `skip_fields` is copied onto it with `setattr`.
`skip_fields` holds `query`, `created_at`, `updated_at`, the three enums and
the three nested agent analyses, so exactly the fields below are
overwritten. -/
def applyCachedDict (a : Analysis) (d : AnalysisDictModel) : Analysis :=
  { a with
    asset_symbol := d.asset_symbol
    executive_summary := d.executive_summary
    investment_thesis := d.investment_thesis
    overall_confidence := d.overall_confidence
    risk_score := d.risk_score
    position_sizing := d.position_sizing
    entry_points := d.entry_points
    stop_loss := d.stop_loss
    take_profit := d.take_profit
    time_horizon := d.time_horizon
    bullish_factors := d.bullish_factors
    bearish_factors := d.bearish_factors
    critical_factors := d.critical_factors
    key_risks := d.key_risks
    risk_mitigations := d.risk_mitigations }

/-- Embeds the value stored by `_cache_analysis_for_conversation`. -/
structure ConversationCacheEntry where
  timestamp : ℚ
  outlook : String
  confidence : ℚ
  trading_action : String
  technical_score : ℚ
  sentiment_score : ℚ
  fundamental_score : ℚ
  analysis_dict : AnalysisDictModel
deriving DecidableEq, Repr

abbrev CacheMap : Type := List (String × ConversationCacheEntry)

/-- Embeds `_get_cached_analysis_for_conversation`: key `cid:asset`, entry
older than 30 minutes is deleted and treated as a miss; a fresh entry is a
hit.  Returns the possibly-updated cache alongside the result. -/
def getCachedForConversation (cache : CacheMap) (conversation_id asset_symbol : String)
    (now : ℚ) : Option ConversationCacheEntry × CacheMap :=
  let key := conversation_id ++ ":" ++ asset_symbol
  match lookupA key cache with
  | none => (none, cache)
  | some e =>
    if now - e.timestamp > 30 then (none, eraseA key cache)
    else (some e, cache)

/-- Embeds the entry built by `_cache_analysis_for_conversation` (lines 270
through 279). -/
def mkConversationEntry (now : ℚ) (a : Analysis) : ConversationCacheEntry :=
  { timestamp := now
    outlook := a.outlook.value
    confidence := a.overall_confidence
    trading_action := a.trading_action.value
    technical_score := ((a.technical_analysis.map (·.confidence)).getD (1/2))
    sentiment_score := ((a.sentiment_analysis.map (·.confidence)).getD (1/2))
    fundamental_score := ((a.macro_analysis.map (·.confidence)).getD (1/2))
    analysis_dict := a.toDictModel }

/-- Embeds `_cache_analysis_for_conversation`: dict assignment under the key
`cid:asset`. -/
def cacheForConversation (cache : CacheMap) (conversation_id asset_symbol : String)
    (a : Analysis) (now : ℚ) : CacheMap :=
  setA (conversation_id ++ ":" ++ asset_symbol) (mkConversationEntry now a) cache

/-- Embeds the `except` fallback of `_create_analysis_from_cache` (lines 333
through 348): the basic analysis returned when rebuilding from the cache
raises. -/
def fallbackCacheAnalysis (query asset_symbol : String) (now : ℚ) : Analysis :=
  { query := query
    asset_symbol := asset_symbol
    executive_summary := "neutral"
    investment_thesis := "Based on previous analysis"
    outlook := .neutral
    overall_confidence := 1/2
    risk_level := .medium
    risk_score := 1/2
    trading_action := .hold
    position_sizing := "medium"
    time_horizon := "medium"
    created_at := now }

/-- Embeds the `try` body of `_create_analysis_from_cache` (lines 296 through
330): an `Analysis` skeleton is built from the cached summary values (enum
conversion and `__post_init__` may raise), then every non-skipped key of the
cached `analysis_dict` is written over it. -/
def createAnalysisFromCacheTry (query asset_symbol : String)
    (cached : ConversationCacheEntry) (now : ℚ) : Except String Analysis :=
  match MarketOutlook.ofString cached.outlook with
  | none => .error "ValueError: invalid MarketOutlook"
  | some outlook =>
    match TradingAction.ofString cached.trading_action with
    | none => .error "ValueError: invalid TradingAction"
    | some action =>
      match analysisPostInit
        { query := query
          asset_symbol := asset_symbol
          executive_summary := cached.outlook
          investment_thesis := "Based on previous analysis"
          outlook := outlook
          overall_confidence := cached.confidence
          risk_level := .medium
          risk_score := 1/2
          trading_action := action
          position_sizing := "medium"
          time_horizon := "medium"
          created_at := now
          updated_at := now } with
      | .error e => .error e
      | .ok base => .ok (applyCachedDict base cached.analysis_dict)

/-- Embeds `_create_analysis_from_cache`: the `try` body with its catch-all
fallback. -/
def createAnalysisFromCache (query asset_symbol : String)
    (cached : ConversationCacheEntry) (now : ℚ) : Analysis :=
  match createAnalysisFromCacheTry query asset_symbol cached now with
  | .ok a => a
  | .error _ => fallbackCacheAnalysis query asset_symbol now

/-- Result of one `AnalysisService.analyze` call: whether the agent pipeline
ran (`should_run_agents` after step 1), the returned analysis and the updated
conversation cache. -/
structure ServiceResult where
  ranAgents : Bool
  analysis : Analysis
  cache : CacheMap
deriving Repr

/-- Embeds the caching strategy of `AnalysisService.analyze` (lines 59
through 119).  `freshAnalysis` is the result the synthesis-agent pipeline
would produce when invoked (the pipeline itself is the parameter; `ranAgents`
records whether it is invoked). -/
def serviceAnalyze (cache : CacheMap) (query asset_symbol : String)
    (conversation_id : Option String) (freshAnalysis : Analysis) (now : ℚ) :
    ServiceResult :=
  match conversation_id with
  | none => { ranAgents := true, analysis := freshAnalysis, cache := cache }
  | some cid =>
    match getCachedForConversation cache cid asset_symbol now with
    | (some e, cache₁) =>
      { ranAgents := false
        analysis := createAnalysisFromCache query asset_symbol e now
        cache := cache₁ }
    | (none, cache₁) =>
      { ranAgents := true
        analysis := freshAnalysis
        cache := cacheForConversation cache₁ cid asset_symbol freshAnalysis now }

/-- Embeds `AnalysisService.clear_cache_for_context`: deletes every in-memory
cache key that starts with `conversation_id` followed by a colon; the body is
wrapped in a catch-all, and this list filter is total, so the call never
raises to its caller. -/
def clearCacheForContext (cache : CacheMap) (conversation_id : String) : CacheMap :=
  cache.filter (fun kv => !(kv.1.startsWith (conversation_id ++ ":")))

/-! ## RAG service (`src/application/services/rag_service.py`) -/

/-- Embeds the dataclass `RAGDocument`.  `metadata : Dict[str, Any]` is
modelled as a string map. -/
structure RAGDocument where
  text : String
  metadata : List (String × String)
  embedding : Option (List ℚ) := none
  id : Option String := none
deriving DecidableEq, Repr

/-- Lexicographic code-point comparison on character lists (the order
`json.dumps(..., sort_keys=True)` sorts keys by). -/
def charListLe : List Char → List Char → Bool
  | [], _ => true
  | _ :: _, [] => false
  | a :: as, b :: bs =>
    if a.toNat < b.toNat then true
    else if b.toNat < a.toNat then false
    else charListLe as bs

def strLe (a b : String) : Bool :=
  charListLe a.toList b.toList

/-- Insertion of a pair into a key-sorted list, for `json.dumps(...,
sort_keys=True)`. -/
def insertByKey (p : String × String) : List (String × String) → List (String × String)
  | [] => [p]
  | q :: rest => if strLe p.1 q.1 then p :: q :: rest else q :: insertByKey p rest

/-- Key-sorting of a metadata map, as performed by `json.dumps(metadata,
sort_keys=True)`. -/
def sortPairsByKey : List (String × String) → List (String × String)
  | [] => []
  | p :: rest => insertByKey p (sortPairsByKey rest)

/-- Embeds `json.dumps(self.metadata, sort_keys=True)`: a canonical
serialisation of the metadata map with keys in sorted order.  The exact
punctuation of the JSON encoder is irrelevant to every claim (only that the
serialisation is a function of the key-sorted pairs), so a plain
concatenation is used. -/
def jsonDumpsSorted (metadata : List (String × String)) : String :=
  (sortPairsByKey metadata).foldl
    (fun acc p => acc ++ "\"" ++ p.1 ++ "\": \"" ++ p.2 ++ "\", ") ""

/-- Modelled from the spec: `hashlib.md5(...).hexdigest()` is an external
library primitive; it is modelled as a concrete deterministic digest of the
input string (a 64-bit fold rendered in decimal).  Every claim about ids
depends only on the digest being a deterministic function of its input. -/
def md5Model (s : String) : String :=
  toString (s.toList.foldl (fun h c => (h * 131 + c.toNat) % (2 ^ 64)) 5381)

/-- Embeds `RAGDocument.generate_id`: a digest of the text concatenated with
the key-sorted serialisation of the metadata. -/
def RAGDocument.generate_id (d : RAGDocument) : String :=
  md5Model (d.text ++ jsonDumpsSorted d.metadata)

/-- One stored entry of a chromadb collection. -/
structure StoredDoc where
  id : String
  text : String
  metadata : List (String × String)
  embedding : List ℚ
deriving DecidableEq, Repr

/-- A chromadb collection: its stored entries in insertion order. -/
structure Collection where
  entries : List StoredDoc := []
deriving DecidableEq, Repr

/-- Modelled from the spec: `collection.add` of chromadb is external; per the
spec (§3, the id gives natural deduplication and re-inserting the same
content is a no-op at the storage layer) an id that is already stored is
skipped and the call succeeds. -/
def chromaCollectionAdd (c : Collection) (batch : List StoredDoc) : Collection :=
  batch.foldl
    (fun acc d =>
      if acc.entries.any (fun e => e.id = d.id) then acc
      else { acc with entries := acc.entries ++ [d] })
    c

/-- Behaviour of one store-layer batch operation (embedding generation plus
`collection.add`), the external part of the `try` block at lines 244 through
273 of `rag_service.py`: it either yields the updated collection or raises. -/
abbrev StoreOp : Type := Collection → List StoredDoc → Except String Collection

/-- The store behaviour in which `collection.add` succeeds with
duplicate-skipping semantics. -/
def chromaStore : StoreOp := fun c batch => .ok (chromaCollectionAdd c batch)

/-- A store behaviour in which every batch operation raises (the store layer
is unavailable). -/
def failingStore : StoreOp := fun _ _ => .error "chromadb unavailable"

/-- State of the RAG service: the named collections. -/
structure RAGState where
  collections : List (String × Collection)
deriving Repr

/-- Record update of the collection registry (used to state equations about
`addDocuments`). -/
def withCollections (st : RAGState) (cs : List (String × Collection)) : RAGState :=
  { st with collections := cs }

/-- Embeds `self.collection_mapping` of `RAGService.__init__`.  The constants
module is not under `src/`; the canonical collection names `crypto_data`,
`news_sentiment` and `macro_data` are taken from the docstring of
`RAGService._get_collection`. -/
def collectionNameMapping : List (String × String) :=
  [("crypto", "crypto_data"), ("news", "news_sentiment"), ("macro", "macro_data"),
   ("crypto_data", "crypto_data"), ("news_sentiment", "news_sentiment"),
   ("macro_data", "macro_data")]

/-- Embeds the `variations` list of `RAGService._get_collection`. -/
def collectionVariations (collection_name : String) : List String :=
  [collection_name ++ "_data", collection_name ++ "_sentiment",
   collection_name ++ "_collection",
   collection_name.replace "_data" "", collection_name.replace "_sentiment" "",
   collection_name.replace "_collection" ""]

/-- First member of `candidates` that names an existing collection. -/
def firstKnown (names : List String) : List String → Option String
  | [] => none
  | c :: rest => if names.contains c then some c else firstKnown names rest

/-- Embeds `RAGService._get_collection`, resolving a requested name to the
key of an existing collection (`none` models the non-fatal "collection not
found" outcome).  Resolution depends only on the set of collection names. -/
def resolveCollectionName (names : List String) (collection_name : String) :
    Option String :=
  match lookupA collection_name collectionNameMapping with
  | some mapped =>
    if names.contains mapped then some mapped
    else if names.contains collection_name then some collection_name
    else firstKnown names (collectionVariations collection_name)
  | none =>
    if names.contains collection_name then some collection_name
    else firstKnown names (collectionVariations collection_name)

def getCollectionKey (st : RAGState) (collection_name : String) : Option String :=
  resolveCollectionName (st.collections.map (·.1)) collection_name

/-- Embeds the statistics dictionary built at lines 199 through 206 of
`rag_service.py` and returned by `add_documents`. -/
structure AddStats where
  total_documents : Nat
  successful : Nat := 0
  failed : Nat := 0
  errors : List String := []
  collection : String
deriving DecidableEq, Repr

/-- The keys of the Python `stats` dictionary of `add_documents`.  The
dictionary always holds these six keys, which is what Python truthiness of
the returned value tests. -/
def addStatsKeys : List String :=
  ["total_documents", "successful", "failed", "errors", "collection", "timestamp"]

/-- Python truthiness of a dictionary: it is truthy exactly when it is
non-empty. -/
def pythonDictTruthy (keys : List String) : Bool :=
  !keys.isEmpty

/-- Fuel-indexed worker for `chunksOf`; the fuel is an upper bound on the
number of chunks (each step consumes at least one element, so the list
length suffices), making the recursion structural. -/
def chunksOfGo {α : Type} (n : Nat) : Nat → List α → List (List α)
  | _, [] => []
  | 0, l => [l]
  | fuel + 1, a :: rest => (a :: rest.take (n - 1)) :: chunksOfGo n fuel (rest.drop (n - 1))

/-- Embeds `range(0, len(rag_docs), batch_size)` chunking. -/
def chunksOf {α : Type} (n : Nat) (l : List α) : List (List α) :=
  chunksOfGo n l.length l

/-- Embeds the id assignment of `add_documents` (lines 231 through 233):
`if not rag_doc.id: rag_doc.id = rag_doc.generate_id()` — a missing id and
an empty-string id (both falsy in Python) are replaced by the generated
digest. -/
def assignDocId (d : RAGDocument) : RAGDocument :=
  match d.id with
  | some s => if s = "" then { d with id := some d.generate_id } else d
  | none => { d with id := some d.generate_id }

def storedOfDoc (embed : String → List ℚ) (d : RAGDocument) : StoredDoc :=
  { id := d.id.getD ""
    text := d.text
    metadata := d.metadata
    embedding := d.embedding.getD (embed d.text) }

/-- Embeds `RAGService.add_documents`.  The embedding function and the store
behaviour are parameters (`_generate_embeddings` itself never raises — it
falls back to zero vectors — so only the store step can fail a batch, which
the per-batch `except` turns into `failed += len(batch)` plus an error
message).  The per-document conversion `try` never fails in this model
because conversion of a well-typed document cannot raise.  Returns the
statistics and the updated state. -/
def addDocuments (st : RAGState) (store : StoreOp) (embed : String → List ℚ)
    (documents : List RAGDocument) (collection_name : String)
    (batch_size : Nat := 100) : AddStats × RAGState :=
  let stats0 : AddStats := { total_documents := documents.length, collection := collection_name }
  if documents.isEmpty then (stats0, st)
  else
    match getCollectionKey st collection_name with
    | none =>
      ({ stats0 with errors := ["Collection " ++ collection_name ++ " not found"] }, st)
    | some key =>
      let coll₀ := (lookupA key st.collections).getD {}
      let rag_docs := documents.map assignDocId
      let step := fun (acc : AddStats × Collection) (batch : List RAGDocument) =>
        let stored := batch.map (storedOfDoc embed)
        match store acc.2 stored with
        | .ok c₂ => ({ acc.1 with successful := acc.1.successful + batch.length }, c₂)
        | .error e =>
          ({ acc.1 with
              failed := acc.1.failed + batch.length
              errors := acc.1.errors ++ ["Batch error: " ++ e] }, acc.2)
      let (stats, coll) := (chunksOf batch_size rag_docs).foldl step (stats0, coll₀)
      (stats, { st with collections := setA key coll st.collections })

/-! ## Data orchestrator (`src/application/orchestrators/data_orchestrator.py`) -/

/-- Embeds the enum `UpdatePriority`. -/
inductive UpdatePriority where
  | critical | high | medium | low
deriving DecidableEq, Repr

/-- Embeds the dataclass `DataSourceConfig`. -/
structure DataSourceConfig where
  name : String
  enabled : Bool
  priority : UpdatePriority
  scraper_type : String
  urls : List String := []
  collection : String
  last_update : Option ℚ := none
  success_rate : ℚ := 1
  total_fetches : Nat := 0
deriving DecidableEq, Repr

/-- The orchestrator counters of `self.stats` touched by `update_source`. -/
structure OrchStats where
  total_updates : Nat := 0
  successful_updates : Nat := 0
  failed_updates : Nat := 0
  total_documents : Nat := 0
deriving DecidableEq, Repr

/-- Embeds the per-call `result` dictionary of `update_source` (timestamps
elided). -/
structure UpdateResult where
  success : Bool
  documents_added : Nat := 0
  errors : List String := []
deriving DecidableEq, Repr

/-- Embeds `DataOrchestrator.update_source` on a known source.  The fetched
documents are a parameter (the three `_fetch_*` helpers swallow their own
errors and return a list).  Note the faithful rendering of line 225:
`success = await self.rag_service.add_documents(...)` binds the statistics
dictionary returned by `add_documents`, and line 230 tests `if success:` —
Python truthiness of that non-empty dictionary — not a boolean outcome. -/
def updateSource (source : DataSourceConfig) (fetched : List RAGDocument)
    (st : RAGState) (store : StoreOp) (embed : String → List ℚ)
    (stats : OrchStats) (now : ℚ) :
    UpdateResult × DataSourceConfig × OrchStats × RAGState :=
  if ¬ source.enabled then
    ({ success := false, errors := ["Source disabled"] }, source, stats, st)
  else if fetched.isEmpty then
    ({ success := false, errors := ["No documents fetched"] }, source,
     { stats with
        failed_updates := stats.failed_updates + 1
        total_updates := stats.total_updates + 1 }, st)
  else
    let (_addStats, st₂) := addDocuments st store embed fetched source.collection
    if pythonDictTruthy addStatsKeys then
      ({ success := true, documents_added := fetched.length },
       { source with last_update := some now, total_fetches := source.total_fetches + 1 },
       { stats with
          successful_updates := stats.successful_updates + 1
          total_documents := stats.total_documents + fetched.length
          total_updates := stats.total_updates + 1 }, st₂)
    else
      ({ success := false, errors := ["Failed to add documents to RAG"] }, source,
       { stats with
          failed_updates := stats.failed_updates + 1
          total_updates := stats.total_updates + 1 }, st₂)

/-- Embeds the grouping loop of `update_all_sources` (lines 386 through 395):
the enabled sources of one priority tier, in registry order. -/
def enabledKeysByPriority (sources : List (String × DataSourceConfig))
    (p : UpdatePriority) : List String :=
  (sources.filter (fun kv => kv.2.enabled && decide (kv.2.priority = p))).map (·.1)

/-- Embeds the dispatch order of `update_all_sources` (lines 398 through
407): tiers are iterated in the fixed order critical, high, medium, low, and
within one tier the `update_source` calls are dispatched by asyncio.gather
in an arbitrary interleaving, modelled by the per-tier schedule `sched`; the
`await` of each gather completes the whole tier before the next tier starts. -/
def updateAllDispatchTrace (sched : UpdatePriority → List String) : List String :=
  sched .critical ++ sched .high ++ sched .medium ++ sched .low

/-- A schedule is valid for a source registry when each tier dispatches
exactly the enabled sources of that tier, in some order. -/
def ValidSchedule (sources : List (String × DataSourceConfig))
    (sched : UpdatePriority → List String) : Prop :=
  ∀ p, (sched p).Perm (enabledKeysByPriority sources p)

/-! ## Technical analyst (`src/application/agents/technical_analyst.py`)

The external collaborators invoked by `analyze` (translation service,
Binance and CoinGecko clients, the language model, the TTS service) are
modelled as `Except`-valued fields of an environment record: an `error`
models the call raising an exception. -/

/-- Raw technical data dictionary (its content flows only into the prompt,
so it is carried as a plain string map). -/
abbrev TechData : Type := List (String × String)

/-- Parsed technical LLM response fields read by `analyze`. -/
structure TechParsed where
  summary : Option String := none
  confidence : Option ℚ := none
  key_factors : Option (List String) := none
deriving DecidableEq, Repr

/-- Environment of one `TechnicalAnalyst.analyze` run. -/
structure TechEnv where
  contextPresent : Bool := true
  audio_output : Bool := false
  translateQuery : Except String String
  ragDocs : List (String × String) := []
  binanceRes : Except String TechData
  geckoRes : Except String TechData
  llmRes : Except String String
  parseRes : Option TechParsed := none
  translateSummary : Except String String := .ok ""
  ttsRes : Except String String := .ok "audio.mp3"
deriving Repr

/-- Embeds `TechnicalAnalyst._collect_technical_data`: Binance first, on any
exception CoinGecko, on a second exception the empty dictionary.  Total —
this helper never raises. -/
def collectTechnicalData (binanceRes geckoRes : Except String TechData) : TechData :=
  match binanceRes with
  | .ok d => d
  | .error _ =>
    match geckoRes with
    | .ok d => d
    | .error _ => []

/-- Modelled from the spec: `BaseAgent.format_output` is not under `src/`;
per the spec (§3, SpecialistOpinion) it packages the analysis dictionary
with the agent name, the given confidence and key factors. -/
def formatOutput (name : String) (summary : String) (confidence : ℚ)
    (key_factors : List String) (detailed : List (String × String)) : OpinionDict :=
  { agent_name := some name
    summary := some summary
    confidence := some confidence
    key_factors := some key_factors
    detailed_analysis := some detailed }

/-- Embeds the `try` body of `TechnicalAnalyst.analyze` (lines 75 through
132).  A JSON decode failure of the LLM response is itself caught and
produces the dictionary with the raw response as summary and confidence 0.6;
the later `context.get("audio_output", False)` raises when no context was
passed.  The saved audio path is elided (nothing reads it). -/
def technicalAnalyzeTry (env : TechEnv) : Except String OpinionDict :=
  match env.translateQuery with
  | .error e => .error e
  | .ok _queryEn =>
    let _docs := env.ragDocs
    let _tdata := collectTechnicalData env.binanceRes env.geckoRes
    match env.llmRes with
    | .error e => .error e
    | .ok response =>
      let parsed : TechParsed :=
        match env.parseRes with
        | some p => p
        | none => { summary := some response, confidence := some (6/10), key_factors := some [] }
      match env.translateSummary with
      | .error e => .error e
      | .ok translated =>
        let parsed := { parsed with summary := some translated }
        let out := formatOutput "Technical Analyst" (parsed.summary.getD "")
          (parsed.confidence.getD (7/10)) (parsed.key_factors.getD []) []
        if env.contextPresent then
          if env.audio_output then
            match env.ttsRes with
            | .error e => .error e
            | .ok _audio => .ok out
          else .ok out
        else .error "AttributeError: NoneType object has no attribute get"

/-- Embeds the `except` fallback of `TechnicalAnalyst.analyze` (lines 134
through 140): the error dictionary with confidence 0.0. -/
def technicalFallback (e : String) : OpinionDict :=
  { agent_name := some "Technical Analyst", error := some e, confidence := some 0 }

/-- Embeds `TechnicalAnalyst.analyze`: the `try` body with its catch-all. -/
def technicalAnalyze (env : TechEnv) : OpinionDict :=
  match technicalAnalyzeTry env with
  | .ok d => d
  | .error e => technicalFallback e

/-! ## Macro analyst (`src/application/agents/macro_analyst.py`) -/

/-- Economic-indicator data as consumed downstream: its key list (used by
the data-quality count) and the data-quality tag. -/
structure EconData where
  keyList : List String
  data_quality : String
deriving DecidableEq, Repr

/-- Embeds `MacroAnalyst._collect_economic_data` with its fallback
`_get_crypto_fallback_economic_data`: a FRED failure degrades to the static
fallback dictionary rather than propagating. -/
def collectEconomicData (fredRes : Except String (List (String × String))) : EconData :=
  match fredRes with
  | .ok inds =>
    { keyList := ["fed_funds_rate", "inflation_cpi", "dollar_index",
                  "treasury_yield_10y", "data_quality", "timestamp"]
      data_quality := (lookupA "data_quality" inds).getD "unknown" }
  | .error _ =>
    { keyList := ["fed_funds_rate", "inflation_cpi", "dollar_index",
                  "treasury_yield_10y", "data_quality", "timestamp", "note"]
      data_quality := "estimated_fallback" }

/-- Embeds `econ_indicators_count` of `_enhance_crypto_analysis`. -/
def econIndicatorsCount (e : EconData) : Nat :=
  (e.keyList.filter
    (fun k => !(["data_quality", "timestamp", "note"].contains k))).length

/-- Parsed macro LLM response fields read downstream. -/
structure MacroParsed where
  summary : Option String := none
  monetary_policy_impact : Option String := none
  regulatory_environment : Option String := none
  institutional_adoption_trend : Option String := none
  crypto_correlation : Option String := none
  key_factors : Option (List String) := none
  confidence : Option ℚ := none
deriving DecidableEq, Repr

/-- Embeds `MacroAnalyst._parse_llm_response`: required string fields are
defaulted when missing, and a JSON decode failure yields the fixed
parse-failure dictionary with confidence 0.3. -/
def parseMacroLLMResponse (parseRes : Option MacroParsed) : MacroParsed :=
  match parseRes with
  | some p =>
    { p with
      summary := some (p.summary.getD "")
      monetary_policy_impact := some (p.monetary_policy_impact.getD "neutral")
      regulatory_environment := some (p.regulatory_environment.getD "neutral")
      institutional_adoption_trend := some (p.institutional_adoption_trend.getD "stable")
      crypto_correlation := some (p.crypto_correlation.getD "risk_on") }
  | none =>
    { summary := some "Failed to parse cryptocurrency macroeconomic analysis response."
      monetary_policy_impact := some "neutral"
      regulatory_environment := some "neutral"
      institutional_adoption_trend := some "stable"
      crypto_correlation := some "risk_on"
      key_factors := some ["Data parsing error"]
      confidence := some (3/10) }

/-- Embeds Python `round(x, 2)` (round half to even) on exact rationals. -/
def pyRound2 (x : ℚ) : ℚ :=
  let y := x * 100
  let f : ℤ := ⌊y⌋
  let r := y - (f : ℚ)
  if r < 1/2 then (f : ℚ) / 100
  else if r > 1/2 then ((f : ℚ) + 1) / 100
  else if f % 2 = 0 then (f : ℚ) / 100 else ((f : ℚ) + 1) / 100

/-- Embeds `MacroAnalyst._enhance_crypto_analysis`: the confidence is blended
60/40 with the locally computed data-quality score and capped at 1 (the
metadata block is elided; nothing the claims touch reads it). -/
def enhanceCryptoAnalysis (p : MacroParsed) (econ : EconData)
    (news_count rag_count : Nat) : MacroParsed :=
  let quality : ℚ :=
    min 1 (((econIndicatorsCount econ : ℚ) * (2/5) + (news_count : ℚ) * (2/5)
            + (rag_count : ℚ) * (1/5)) / 10)
  let original := p.confidence.getD (1/2)
  let enhanced := original * (3/5) + quality * (2/5)
  { p with confidence := some (pyRound2 (min enhanced 1)) }

/-- Embeds `MacroAnalyst._create_crypto_fallback_macro_analysis`: the static
dictionary (confidence 0.3) used when the LLM call raises. -/
def fallbackMacroParsed (asset_symbol : String) : MacroParsed :=
  { summary := some ("Limited crypto macroeconomic analysis available for "
      ++ asset_symbol ++ " due to data constraints.")
    monetary_policy_impact := some "neutral"
    regulatory_environment := some "neutral"
    institutional_adoption_trend := some "stable"
    crypto_correlation := some "risk_on"
    key_factors := some ["Data availability", "Market volatility", "Regulatory uncertainty"]
    confidence := some (3/10) }

/-- Embeds `MacroAnalyst._generate_crypto_macro_analysis`: an LLM failure is
caught and degraded to the fallback dictionary; otherwise the response is
parsed (with its own internal fallback) and enhanced.  Total. -/
def generateCryptoMacroAnalysis (llmRes : Except String String)
    (parseRes : Option MacroParsed) (asset_symbol : String) (econ : EconData)
    (news_count rag_count : Nat) : MacroParsed :=
  match llmRes with
  | .error _ => fallbackMacroParsed asset_symbol
  | .ok _ => enhanceCryptoAnalysis (parseMacroLLMResponse parseRes) econ news_count rag_count

/-- Embeds `MacroAnalyst._format_crypto_output` (the crypto-specific metric
and data-source blocks are folded into `detailed_analysis`; the claims read
only the agent name, summary, confidence and key factors). -/
def formatCryptoOutput (p : MacroParsed) : OpinionDict :=
  { agent_name := some "Crypto Macro Analyst"
    summary := some (p.summary.getD "")
    confidence := some (p.confidence.getD (1/2))
    key_factors := some (p.key_factors.getD [])
    detailed_analysis := some [] }

/-- Environment of one `MacroAnalyst.analyze` run. -/
structure MacroEnv where
  contextPresent : Bool := true
  asset_symbol : String := ""
  translateQuery : Except String String
  fredRes : Except String (List (String × String)) := .ok []
  news_count : Nat := 0
  rag_count : Nat := 0
  llmRes : Except String String
  parseRes : Option MacroParsed := none
deriving Repr

/-- Embeds the `try` body of `MacroAnalyst.analyze` (lines 103 through 132).
Every data-collection helper catches its own errors, so the only statement
that can raise here is the translation call. -/
def macroAnalyzeTry (env : MacroEnv) : Except String OpinionDict :=
  match env.translateQuery with
  | .error e => .error e
  | .ok _queryEn =>
    let econ := collectEconomicData env.fredRes
    let result := generateCryptoMacroAnalysis env.llmRes env.parseRes
      env.asset_symbol econ env.news_count env.rag_count
    .ok (formatCryptoOutput result)

/-- Embeds `MacroAnalyst._create_crypto_fallback_analysis`: the full-failure
opinion, confidence 0.1. -/
def macroFallbackOpinion (query : String) : OpinionDict :=
  { agent_name := some "Crypto Macro Analyst"
    summary := some ("Unable to perform cryptocurrency macroeconomic analysis for \x27"
      ++ query ++ "\x27 due to technical issues.")
    confidence := some (1/10)
    key_factors := some ["Technical error", "Data unavailability", "System failure"]
    detailed_analysis := some [] }

/-- Embeds `MacroAnalyst.analyze`: the `try` body with its catch-all
fallback. -/
def macroAnalyze (query : String) (env : MacroEnv) : OpinionDict :=
  match macroAnalyzeTry env with
  | .ok d => d
  | .error _ => macroFallbackOpinion query

/-! ## Concrete sample inputs

Closed evaluation points used by the witnesses and counterexamples. -/

def sampleOpinion (c : ℚ) : OpinionDict :=
  { agent_name := some "Specialist", summary := some "ok", confidence := some c }

def sampleSynthesisOutput : SynthesisOutput :=
  { executive_summary := some "Constructive setup"
    investment_thesis := some "Momentum and fundamentals support a long position"
    outlook := some "bullish"
    trading_action := some "buy"
    position_sizing := some "medium" }

def c1Build : Except String Analysis :=
  synthesisBuild "Should I buy now?" "BTC"
    (.ok (sampleOpinion (4/5))) (.ok (sampleOpinion (7/10))) (.ok (sampleOpinion (3/5)))
    sampleSynthesisOutput 0

def sampleAgentOpinionAnalysis (c : ℚ) : AgentAnalysis :=
  { agent_name := "Specialist", summary := "ok", confidence := c, timestamp := 0 }

/-- The analysis value `c1Build` evaluates to (checked by the C1 witness). -/
def sampleFreshAnalysis : Analysis :=
  { query := "Should I buy now?"
    asset_symbol := "BTC"
    executive_summary := "Constructive setup"
    investment_thesis := "Momentum and fundamentals support a long position"
    outlook := .bullish
    overall_confidence := 7/10
    risk_level := .low
    risk_score := 3/10
    trading_action := .buy
    position_sizing := "medium"
    time_horizon := "medium"
    macro_analysis := some (sampleAgentOpinionAnalysis (4/5))
    technical_analysis := some (sampleAgentOpinionAnalysis (7/10))
    sentiment_analysis := some (sampleAgentOpinionAnalysis (3/5))
    created_at := 0
    updated_at := 0 }

def sampleCache : CacheMap :=
  cacheForConversation [] "conv1" "BTC" sampleFreshAnalysis 0

def zeroEmbed : String → List ℚ := fun _ => [0]

def sampleDoc : RAGDocument :=
  { text := "Bitcoin rallies past resistance"
    metadata := [("source", "CoinDesk"), ("type", "news")] }

def ragState0 : RAGState :=
  { collections := [("crypto_data", {}), ("news_sentiment", {}), ("macro_data", {})] }

def sampleSource : DataSourceConfig :=
  { name := "CoinDesk Markets", enabled := true, priority := .critical,
    scraper_type := "deep", collection := "crypto_data" }

def c7Run : UpdateResult × DataSourceConfig × OrchStats × RAGState :=
  updateSource sampleSource [sampleDoc] ragState0 failingStore zeroEmbed {} 0

def c7RunEmpty : UpdateResult × DataSourceConfig × OrchStats × RAGState :=
  updateSource sampleSource [] ragState0 failingStore zeroEmbed {} 0

def c7AddStats : AddStats :=
  (addDocuments ragState0 failingStore zeroEmbed [sampleDoc] "crypto_data").1

def c9Add1 : AddStats × RAGState :=
  addDocuments ragState0 chromaStore zeroEmbed [sampleDoc] "crypto"

def c9Add2 : AddStats × RAGState :=
  addDocuments c9Add1.2 chromaStore zeroEmbed [sampleDoc] "crypto"

def sampleSources : List (String × DataSourceConfig) :=
  [("coindesk_markets",
    { name := "CoinDesk Markets", enabled := true, priority := .critical,
      scraper_type := "deep", collection := "crypto_data" }),
   ("reuters_forex",
    { name := "Reuters Forex", enabled := true, priority := .high,
      scraper_type := "basic", collection := "news_sentiment" }),
   ("reuters_stocks",
    { name := "Reuters Stocks", enabled := true, priority := .medium,
      scraper_type := "basic", collection := "news_sentiment" }),
   ("financefeeds",
    { name := "Finance Feeds", enabled := false, priority := .medium,
      scraper_type := "basic", collection := "news_sentiment" })]

def sampleSched : UpdatePriority → List String :=
  fun p => enabledKeysByPriority sampleSources p

def techFailEnv : TechEnv :=
  { translateQuery := .ok "Should I buy now?"
    binanceRes := .error "binance down"
    geckoRes := .error "coingecko down"
    llmRes := .error "model call failed" }

def macroFailEnv : MacroEnv :=
  { translateQuery := .error "translation crashed"
    llmRes := .error "model call failed" }

/-! ## Helper lemmas -/

theorem lookupA_setA_self {E : Type} (k : String) (v : E) (l : List (String × E)) :
    lookupA k (setA k v l) = some v := by
  induction l with
  | nil => simp [setA, lookupA]
  | cons hd tl ih =>
    obtain ⟨k₁, v₁⟩ := hd
    by_cases h : k₁ = k
    · simp [setA, h, lookupA]
    · simp [setA, h, lookupA, ih]

theorem setA_self_of_lookupA {E : Type} (k : String) (v : E) (l : List (String × E))
    (h : lookupA k l = some v) : setA k v l = l := by
  induction l with
  | nil => simp [lookupA] at h
  | cons hd tl ih =>
    obtain ⟨k₁, v₁⟩ := hd
    by_cases hk : k₁ = k
    · subst hk
      simp [lookupA] at h
      simp [setA, h]
    · simp [lookupA, hk] at h
      simp [setA, hk, ih h]

theorem mapFst_setA {E : Type} (k : String) (v w : E) (l : List (String × E))
    (h : lookupA k l = some w) : (setA k v l).map Prod.fst = l.map Prod.fst := by
  induction l with
  | nil => simp [lookupA] at h
  | cons hd tl ih =>
    obtain ⟨k₁, v₁⟩ := hd
    by_cases hk : k₁ = k
    · subst hk; simp [setA]
    · simp [lookupA, hk] at h
      simp [setA, hk, ih h]

theorem overallConfidence_eq (m t s : OpinionDict) :
    overallConfidence m t s =
      (m.confidence.getD (1/2) + t.confidence.getD (1/2) + s.confidence.getD (1/2)) / 3 := by
  simp [overallConfidence, synthesisConfidences, opinionConfidence]
  ring

theorem marketOutlook_ofString_value (o : MarketOutlook) :
    MarketOutlook.ofString o.value = some o := by
  cases o <;> rfl

theorem analysisPostInit_ok (a res : Analysis) (h : analysisPostInit a = .ok res) :
    res = a ∧ 0 ≤ a.overall_confidence ∧ a.overall_confidence ≤ 1
    ∧ 0 ≤ a.risk_score ∧ a.risk_score ≤ 1 := by
  unfold analysisPostInit at h
  split_ifs at h with h₁ h₂ <;> simp at h
  exact ⟨h.symm, h₁.1, h₁.2, h₂.1, h₂.2⟩

theorem tradingAction_ofString_value (ta : TradingAction) :
    TradingAction.ofString ta.value = some ta := by
  cases ta <;> rfl

theorem serviceAnalyze_hit (cache : CacheMap) (q asset c : String)
    (e : ConversationCacheEntry) (fresh : Analysis) (now : ℚ)
    (hlk : lookupA (c ++ ":" ++ asset) cache = some e)
    (hage : now - e.timestamp ≤ 30) :
    serviceAnalyze cache q asset (some c) fresh now
      = { ranAgents := false
          analysis := createAnalysisFromCache q asset e now
          cache := cache } := by
  have hget : getCachedForConversation cache c asset now = (some e, cache) := by
    simp only [getCachedForConversation, hlk]
    rw [if_neg (by linarith)]
  simp only [serviceAnalyze, hget]

theorem serviceAnalyze_stale (cache : CacheMap) (q asset c : String)
    (e : ConversationCacheEntry) (fresh : Analysis) (now : ℚ)
    (hlk : lookupA (c ++ ":" ++ asset) cache = some e)
    (hage : 30 < now - e.timestamp) :
    serviceAnalyze cache q asset (some c) fresh now
      = { ranAgents := true
          analysis := fresh
          cache := cacheForConversation (eraseA (c ++ ":" ++ asset) cache)
                     c asset fresh now } := by
  have hget : getCachedForConversation cache c asset now
      = (none, eraseA (c ++ ":" ++ asset) cache) := by
    simp only [getCachedForConversation, hlk]
    rw [if_pos (by linarith)]
  simp only [serviceAnalyze, hget]

theorem createAnalysisFromCache_entry (q₂ asset : String) (a : Analysis) (tE now : ℚ)
    (hconf : 0 ≤ a.overall_confidence ∧ a.overall_confidence ≤ 1) :
    createAnalysisFromCache q₂ asset (mkConversationEntry tE a) now
      = applyCachedDict
          { query := q₂
            asset_symbol := asset
            executive_summary := a.outlook.value
            investment_thesis := "Based on previous analysis"
            outlook := a.outlook
            overall_confidence := a.overall_confidence
            risk_level := .medium
            risk_score := 1/2
            trading_action := a.trading_action
            position_sizing := "medium"
            time_horizon := "medium"
            created_at := now
            updated_at := now }
          a.toDictModel := by
  unfold createAnalysisFromCache createAnalysisFromCacheTry mkConversationEntry
  simp only [marketOutlook_ofString_value, tradingAction_ofString_value]
  have hpost : analysisPostInit
      { query := q₂, asset_symbol := asset, executive_summary := a.outlook.value,
        investment_thesis := "Based on previous analysis", outlook := a.outlook,
        overall_confidence := a.overall_confidence, risk_level := .medium,
        risk_score := 1/2, trading_action := a.trading_action,
        position_sizing := "medium", time_horizon := "medium",
        created_at := now, updated_at := now }
      = .ok
      { query := q₂, asset_symbol := asset, executive_summary := a.outlook.value,
        investment_thesis := "Based on previous analysis", outlook := a.outlook,
        overall_confidence := a.overall_confidence, risk_level := .medium,
        risk_score := 1/2, trading_action := a.trading_action,
        position_sizing := "medium", time_horizon := "medium",
        created_at := now, updated_at := now } := by
    unfold analysisPostInit
    rw [if_neg (not_not_intro hconf), if_neg (not_not_intro (by norm_num))]
  simp only [hpost]

theorem pairMem_val_unique {E : Type} (l : List (String × E))
    (hN : (l.map Prod.fst).Nodup) (k : String) (a b : E)
    (ha : (k, a) ∈ l) (hb : (k, b) ∈ l) : a = b := by
  induction l with
  | nil => cases ha
  | cons hd tl ih =>
    obtain ⟨k₁, v₁⟩ := hd
    simp only [List.map_cons, List.nodup_cons] at hN
    rcases List.mem_cons.mp ha with ha' | ha' <;> rcases List.mem_cons.mp hb with hb' | hb'
    · rw [Prod.mk.injEq] at ha' hb'
      rw [ha'.2, hb'.2]
    · exfalso
      rw [Prod.mk.injEq] at ha'
      exact hN.1 (ha'.1 ▸ List.mem_map.mpr ⟨(k, b), hb', rfl⟩)
    · exfalso
      rw [Prod.mk.injEq] at hb'
      exact hN.1 (hb'.1 ▸ List.mem_map.mpr ⟨(k, a), ha', rfl⟩)
    · exact ih hN.2 ha' hb'

theorem mem_enabledKeys_iff (sources : List (String × DataSourceConfig))
    (k : String) (p : UpdatePriority) :
    k ∈ enabledKeysByPriority sources p
      ↔ ∃ cfg, (k, cfg) ∈ sources ∧ cfg.enabled = true ∧ cfg.priority = p := by
  constructor
  · intro hk
    simp only [enabledKeysByPriority, List.mem_map] at hk
    obtain ⟨⟨k', cfg⟩, hmem, hfst⟩ := hk
    rw [List.mem_filter] at hmem
    have hcond := hmem.2
    simp only [Bool.and_eq_true, decide_eq_true_eq] at hcond
    subst hfst
    exact ⟨cfg, hmem.1, hcond.1, hcond.2⟩
  · rintro ⟨cfg, hmem, hen, hp⟩
    simp only [enabledKeysByPriority, List.mem_map]
    refine ⟨(k, cfg), ?_, rfl⟩
    rw [List.mem_filter]
    simp only [Bool.and_eq_true, decide_eq_true_eq]
    exact ⟨hmem, hen, hp⟩

theorem enabledKeys_priority_eq (sources : List (String × DataSourceConfig))
    (hN : (sources.map Prod.fst).Nodup) (k : String) (p q : UpdatePriority)
    (hp : k ∈ enabledKeysByPriority sources p)
    (hq : k ∈ enabledKeysByPriority sources q) : p = q := by
  obtain ⟨c₁, m₁, _, hp₁⟩ := (mem_enabledKeys_iff sources k p).mp hp
  obtain ⟨c₂, m₂, _, hq₁⟩ := (mem_enabledKeys_iff sources k q).mp hq
  have hc := pairMem_val_unique sources hN k c₁ c₂ m₁ m₂
  rw [← hp₁, hc, hq₁]

theorem append_region {α : Type} (E F : List α) (i : Nat) (hi : i < (E ++ F).length) :
    (i < E.length ∧ (E ++ F)[i] ∈ E) ∨ (E.length ≤ i ∧ (E ++ F)[i] ∈ F) := by
  by_cases hc : i < E.length
  · exact Or.inl ⟨hc, by rw [List.getElem_append_left hc]; exact List.getElem_mem hc⟩
  · push_neg at hc
    refine Or.inr ⟨hc, ?_⟩
    rw [List.getElem_append_right hc]
    exact List.getElem_mem _

/-! ## Claim theorems -/

/-- C5: `SynthesisAgent._get_risk_level` is a deterministic, boundary-exact
bucketing of the risk score: below 0.2 yields very_low, [0.2, 0.4) yields
low, [0.4, 0.6) yields medium, [0.6, 0.8) yields high, and at least 0.8
yields very_high; in particular 0.2 maps to low and 0.19999 maps to
very_low. -/
theorem C5_risk_level_bucketing :
    (∀ x : ℚ,
      (x < 1/5 → getRiskLevel x = .very_low)
      ∧ (1/5 ≤ x ∧ x < 2/5 → getRiskLevel x = .low)
      ∧ (2/5 ≤ x ∧ x < 3/5 → getRiskLevel x = .medium)
      ∧ (3/5 ≤ x ∧ x < 4/5 → getRiskLevel x = .high)
      ∧ (4/5 ≤ x → getRiskLevel x = .very_high))
    ∧ getRiskLevel (2/10) = .low
    ∧ getRiskLevel (19999/100000) = .very_low := by
  have e2 : (0.2 : ℚ) = 1/5 := by norm_num
  have e4 : (0.4 : ℚ) = 2/5 := by norm_num
  have e6 : (0.6 : ℚ) = 3/5 := by norm_num
  have e8 : (0.8 : ℚ) = 4/5 := by norm_num
  refine ⟨fun x => ?_, by norm_num [getRiskLevel], by norm_num [getRiskLevel]⟩
  simp only [getRiskLevel, e2, e4, e6, e8]
  refine ⟨?_, ?_, ?_, ?_, ?_⟩ <;> intro h <;> split_ifs with h₁ h₂ h₃ h₄ <;>
    first
      | rfl
      | (exfalso
         first
           | (obtain ⟨hl, hr⟩ := h; linarith)
           | linarith)

/-- Witness for C5 at concrete risk scores, one per bucket. -/
theorem C5_risk_level_bucketing_witness :
    getRiskLevel (1/10) = .very_low ∧ getRiskLevel (1/4) = .low
    ∧ getRiskLevel (1/2) = .medium ∧ getRiskLevel (7/10) = .high
    ∧ getRiskLevel (9/10) = .very_high :=
  ⟨(C5_risk_level_bucketing.1 (1/10)).1 (by norm_num),
   (C5_risk_level_bucketing.1 (1/4)).2.1 ⟨by norm_num, by norm_num⟩,
   (C5_risk_level_bucketing.1 (1/2)).2.2.1 ⟨by norm_num, by norm_num⟩,
   (C5_risk_level_bucketing.1 (7/10)).2.2.2.1 ⟨by norm_num, by norm_num⟩,
   (C5_risk_level_bucketing.1 (9/10)).2.2.2.2 (by norm_num)⟩

/-- C1: whenever `SynthesisAgent.analyze` reaches construction of the final
`Analysis` and it is returned, its `overall_confidence` is the arithmetic
mean of the three (error-wrapped) opinion confidences, each defaulting to
0.5 when the `confidence` key is absent; `risk_score` is exactly
`1 - overall_confidence`; and both lie in [0, 1]. -/
theorem C1_overall_confidence_risk_invariants (q a : String)
    (macroRes techRes sentRes : Except String OpinionDict)
    (synth : SynthesisOutput) (now : ℚ) (res : Analysis)
    (h : synthesisBuild q a macroRes techRes sentRes synth now = .ok res) :
    res.overall_confidence =
      ((wrapGatherResult macroRes).confidence.getD (1/2)
        + (wrapGatherResult techRes).confidence.getD (1/2)
        + (wrapGatherResult sentRes).confidence.getD (1/2)) / 3
    ∧ res.risk_score = 1 - res.overall_confidence
    ∧ 0 ≤ res.overall_confidence ∧ res.overall_confidence ≤ 1
    ∧ 0 ≤ res.risk_score ∧ res.risk_score ≤ 1 := by
  unfold synthesisBuild at h
  split at h
  · exact absurd h (by simp)
  split at h
  · exact absurd h (by simp)
  obtain ⟨rfl, h₁, h₂, h₃, h₄⟩ := analysisPostInit_ok _ _ h
  exact ⟨overallConfidence_eq _ _ _, rfl, h₁, h₂, h₃, h₄⟩

/-- Witness for C1 at a concrete pipeline run. -/
theorem C1_overall_confidence_risk_invariants_witness :
    sampleFreshAnalysis.risk_score = 1 - sampleFreshAnalysis.overall_confidence
    ∧ 0 ≤ sampleFreshAnalysis.overall_confidence
    ∧ sampleFreshAnalysis.overall_confidence ≤ 1 := by
  have h : synthesisBuild "Should I buy now?" "BTC"
      (.ok (sampleOpinion (4/5))) (.ok (sampleOpinion (7/10))) (.ok (sampleOpinion (3/5)))
      sampleSynthesisOutput 0 = .ok sampleFreshAnalysis := by
    unfold synthesisBuild sampleSynthesisOutput sampleOpinion
    norm_num [wrapGatherResult, MarketOutlook.ofString, TradingAction.ofString,
      analysisPostInit, overallConfidence, synthesisConfidences, opinionConfidence,
      mkAgentAnalysis, sampleFreshAnalysis, sampleAgentOpinionAnalysis, getRiskLevel,
      Analysis.mk.injEq, AgentAnalysis.mk.injEq]
  have H := C1_overall_confidence_risk_invariants _ _ _ _ _ _ _ _ h
  exact ⟨H.2.1, H.2.2.1, H.2.2.2.1⟩

/-- C3: `AnalysisService.analyze` runs the analyzer pipeline exactly when the
conversation cache does not serve the request: with no conversation id the
pipeline always runs; with a cached entry of age at most 30 minutes no
analyzer is invoked and the answer is rebuilt from the cached snapshot; with
an entry older than 30 minutes the entry is deleted, the pipeline runs, and
the fresh result is stored back under the same `cid:asset` key. -/
theorem C3_conversation_cache_policy (cache : CacheMap) (q asset : String)
    (cid : Option String) (fresh : Analysis) (now : ℚ) :
    (cid = none → (serviceAnalyze cache q asset cid fresh now).ranAgents = true)
    ∧ (∀ c e, cid = some c →
        lookupA (c ++ ":" ++ asset) cache = some e →
        now - e.timestamp ≤ 30 →
        (serviceAnalyze cache q asset cid fresh now).ranAgents = false
        ∧ (serviceAnalyze cache q asset cid fresh now).analysis
            = createAnalysisFromCache q asset e now
        ∧ (serviceAnalyze cache q asset cid fresh now).cache = cache)
    ∧ (∀ c e, cid = some c →
        lookupA (c ++ ":" ++ asset) cache = some e →
        30 < now - e.timestamp →
        (serviceAnalyze cache q asset cid fresh now).ranAgents = true
        ∧ (serviceAnalyze cache q asset cid fresh now).analysis = fresh
        ∧ (serviceAnalyze cache q asset cid fresh now).cache
            = cacheForConversation (eraseA (c ++ ":" ++ asset) cache) c asset fresh now
        ∧ lookupA (c ++ ":" ++ asset) (serviceAnalyze cache q asset cid fresh now).cache
            = some (mkConversationEntry now fresh)) := by
  refine ⟨?_, ?_, ?_⟩
  · rintro rfl
    rfl
  · rintro c e rfl hlk hage
    rw [serviceAnalyze_hit cache q asset c e fresh now hlk hage]
    exact ⟨rfl, rfl, rfl⟩
  · rintro c e rfl hlk hage
    rw [serviceAnalyze_stale cache q asset c e fresh now hlk hage]
    refine ⟨rfl, rfl, rfl, ?_⟩
    simp only [cacheForConversation, lookupA_setA_self]

/-- Witness for C3: a bypassed cache without a conversation id, a hit at 29
minutes, and a stale entry at 31 minutes that is recomputed and re-stored. -/
theorem C3_conversation_cache_policy_witness :
    (serviceAnalyze sampleCache "What are the risks" "BTC" none sampleFreshAnalysis 29).ranAgents = true
    ∧ (serviceAnalyze sampleCache "What are the risks" "BTC" (some "conv1") sampleFreshAnalysis 29).ranAgents = false
    ∧ (serviceAnalyze sampleCache "What are the risks" "BTC" (some "conv1") sampleFreshAnalysis 31).ranAgents = true
    ∧ lookupA ("conv1" ++ ":" ++ "BTC")
        (serviceAnalyze sampleCache "What are the risks" "BTC" (some "conv1") sampleFreshAnalysis 31).cache
      = some (mkConversationEntry 31 sampleFreshAnalysis) := by
  have hlk : lookupA ("conv1" ++ ":" ++ "BTC") sampleCache
      = some (mkConversationEntry 0 sampleFreshAnalysis) := rfl
  have hts : (mkConversationEntry 0 sampleFreshAnalysis).timestamp = 0 := rfl
  refine ⟨(C3_conversation_cache_policy sampleCache "What are the risks" "BTC" none
      sampleFreshAnalysis 29).1 rfl,
    ((C3_conversation_cache_policy sampleCache "What are the risks" "BTC" (some "conv1")
      sampleFreshAnalysis 29).2.1 "conv1" _ rfl hlk (by rw [hts]; norm_num)).1,
    ((C3_conversation_cache_policy sampleCache "What are the risks" "BTC" (some "conv1")
      sampleFreshAnalysis 31).2.2 "conv1" _ rfl hlk (by rw [hts]; norm_num)).1,
    ((C3_conversation_cache_policy sampleCache "What are the risks" "BTC" (some "conv1")
      sampleFreshAnalysis 31).2.2 "conv1" _ rfl hlk (by rw [hts]; norm_num)).2.2.2⟩

/-- C4 counterexample: a first call stores the analysis; a second call for
the same conversation and asset 29 minutes later is served from the cache,
but its `investment_thesis` is the cached original thesis, not the fixed
placeholder — the write-back loop of `_create_analysis_from_cache` copies
`investment_thesis` from `analysis_dict` because it is not in `skip_fields`,
overwriting the placeholder assigned a few lines above. -/
theorem C4_counterexample :
    (serviceAnalyze [] "Should I buy now?" "BTC" (some "conv1") sampleFreshAnalysis 0).cache
      = sampleCache
    ∧ (serviceAnalyze sampleCache "What are the risks" "BTC" (some "conv1")
        sampleFreshAnalysis 29).ranAgents = false
    ∧ (serviceAnalyze sampleCache "What are the risks" "BTC" (some "conv1")
        sampleFreshAnalysis 29).analysis.investment_thesis
      = "Momentum and fundamentals support a long position"
    ∧ ("Momentum and fundamentals support a long position" : String)
      ≠ "Based on previous analysis" := by
  have hlk : lookupA ("conv1" ++ ":" ++ "BTC") sampleCache
      = some (mkConversationEntry 0 sampleFreshAnalysis) := rfl
  have h := serviceAnalyze_hit sampleCache "What are the risks" "BTC" "conv1" _
    sampleFreshAnalysis 29 hlk (by norm_num [mkConversationEntry])
  have hcc := createAnalysisFromCache_entry "What are the risks" "BTC"
    sampleFreshAnalysis 0 29 (by norm_num [sampleFreshAnalysis])
  refine ⟨rfl, ?_, ?_, by decide⟩
  · rw [h]
  · rw [h]
    simp only [hcc, applyCachedDict, Analysis.toDictModel]
    rfl

/-- C4 (amended): two calls with the same conversation id and asset within
30 minutes: the second call is answered without re-invoking the analyzers,
returns the same `Analysis` shape with `query` set to the new query text,
and its `investment_thesis` equals the investment thesis stored in the
cached snapshot (the placeholder "Based on previous analysis" survives only
when reconstruction from the cache fails, since the write-back loop copies
the cached thesis over it). -/
theorem C4_cache_reuse_fields (cache : CacheMap) (q₂ asset c : String)
    (a fresh : Analysis) (tE now : ℚ)
    (hlk : lookupA (c ++ ":" ++ asset) cache = some (mkConversationEntry tE a))
    (hage : now - tE ≤ 30)
    (hconf : 0 ≤ a.overall_confidence ∧ a.overall_confidence ≤ 1) :
    (serviceAnalyze cache q₂ asset (some c) fresh now).ranAgents = false
    ∧ (serviceAnalyze cache q₂ asset (some c) fresh now).analysis.query = q₂
    ∧ (serviceAnalyze cache q₂ asset (some c) fresh now).analysis.investment_thesis
        = a.investment_thesis := by
  have h := serviceAnalyze_hit cache q₂ asset c _ fresh now hlk
    (by simpa [mkConversationEntry] using hage)
  rw [h]
  have hcc := createAnalysisFromCache_entry q₂ asset a tE now hconf
  refine ⟨rfl, ?_, ?_⟩ <;>
    simp only [hcc, applyCachedDict, Analysis.toDictModel]

/-- Witness for C4 (amended) at the concrete two-call scenario. -/
theorem C4_cache_reuse_fields_witness :
    (serviceAnalyze sampleCache "What are the risks" "BTC" (some "conv1")
        sampleFreshAnalysis 29).ranAgents = false
    ∧ (serviceAnalyze sampleCache "What are the risks" "BTC" (some "conv1")
        sampleFreshAnalysis 29).analysis.query = "What are the risks"
    ∧ (serviceAnalyze sampleCache "What are the risks" "BTC" (some "conv1")
        sampleFreshAnalysis 29).analysis.investment_thesis
      = sampleFreshAnalysis.investment_thesis :=
  C4_cache_reuse_fields sampleCache "What are the risks" "BTC" "conv1"
    sampleFreshAnalysis sampleFreshAnalysis 0 29 rfl (by norm_num)
    (by norm_num [sampleFreshAnalysis])

/-- C10: `AnalysisService.clear_cache_for_context(conversation_id)` removes
exactly the in-memory cache entries whose key starts with the conversation id
followed by a colon: looking up any key after the call yields nothing when
the key has that prefix, and the original binding otherwise.  The function
touches nothing but the conversation cache and is total (the Python body is
additionally wrapped in a catch-all), so it never raises to its caller. -/
theorem C10_clear_cache_for_context_exact (cache : CacheMap) (conversation_id k : String) :
    lookupA k (clearCacheForContext cache conversation_id)
      = if k.startsWith (conversation_id ++ ":") then none else lookupA k cache := by
  induction cache with
  | nil => cases hks : k.startsWith (conversation_id ++ ":") <;>
      simp [clearCacheForContext, lookupA, hks]
  | cons hd tl ih =>
    obtain ⟨k₁, v₁⟩ := hd
    by_cases hEq : k₁ = k
    · subst hEq
      cases hks : k₁.startsWith (conversation_id ++ ":") <;>
        simp_all [clearCacheForContext, List.filter_cons, lookupA]
    · cases hks : k₁.startsWith (conversation_id ++ ":") <;>
        simp_all [clearCacheForContext, List.filter_cons, lookupA, hEq]

/-- C2: in `SynthesisAgent.analyze`, asyncio.gather with
return_exceptions=True converts an exception of any branch into the
dictionary carrying the error message without aborting the others; every
branch completion precedes the synthesis LLM call in the run trace (for any
completion order); the averaged confidence list always has exactly three
elements; and when exactly one branch raises, the mean is taken over the two
successful confidences plus the failed branch fallback value 0.5, never over
two values. -/
theorem C2_fanout_error_isolation :
    (∀ order : List Branch, order.Perm allBranches →
      (∀ b : Branch, SynthEvent.complete b ∈ gatherTrace order)
      ∧ (∀ i j, ∀ hi : i < (gatherTrace order).length,
          ∀ hj : j < (gatherTrace order).length,
          (gatherTrace order)[i] = SynthEvent.llmSynthesisCall →
          ∀ b : Branch, (gatherTrace order)[j] = SynthEvent.complete b → j < i))
    ∧ (∀ e, wrapGatherResult (.error e) = { error := some e })
    ∧ (∀ m t s : Except String OpinionDict,
        (synthesisConfidences (wrapGatherResult m) (wrapGatherResult t)
          (wrapGatherResult s)).length = 3)
    ∧ (∀ (dm ds : OpinionDict) (cm cs : ℚ) (e : String),
        dm.confidence = some cm → ds.confidence = some cs →
        overallConfidence (wrapGatherResult (.ok dm)) (wrapGatherResult (.error e))
          (wrapGatherResult (.ok ds)) = (cm + 1/2 + cs) / 3)
    ∧ (∀ (dt ds : OpinionDict) (ct cs : ℚ) (e : String),
        dt.confidence = some ct → ds.confidence = some cs →
        overallConfidence (wrapGatherResult (.error e)) (wrapGatherResult (.ok dt))
          (wrapGatherResult (.ok ds)) = (1/2 + ct + cs) / 3)
    ∧ (∀ (dm dt : OpinionDict) (cm ct : ℚ) (e : String),
        dm.confidence = some cm → dt.confidence = some ct →
        overallConfidence (wrapGatherResult (.ok dm)) (wrapGatherResult (.ok dt))
          (wrapGatherResult (.error e)) = (cm + ct + 1/2) / 3) := by
  refine ⟨?_, fun _ => rfl, fun _ _ _ => rfl, ?_, ?_, ?_⟩
  · intro order hperm
    constructor
    · intro b
      have hb : b ∈ order := hperm.mem_iff.mpr (by cases b <;> simp [allBranches])
      exact List.mem_append_left _ (List.mem_map.mpr ⟨b, hb, rfl⟩)
    · intro i j hi hj hsy b hcb
      have hlen : (gatherTrace order).length = order.length + 1 := by
        simp [gatherTrace]
      have hi' : i = order.length := by
        by_contra hne
        have hi2 : i < (order.map SynthEvent.complete).length := by
          simp only [List.length_map]
          rw [hlen] at hi
          omega
        have hio : i < order.length := by simpa using hi2
        have : (gatherTrace order)[i] = SynthEvent.complete order[i] := by
          simp only [gatherTrace]
          rw [List.getElem_append_left hi2]
          exact List.getElem_map _
        rw [this] at hsy
        cases hsy
      have hj' : j ≠ order.length := by
        intro hEq
        have hge : (order.map SynthEvent.complete).length ≤ j := by
          simp [hEq]
        have : (gatherTrace order)[j] = SynthEvent.llmSynthesisCall := by
          simp only [gatherTrace]
          rw [List.getElem_append_right hge]
          simp
        rw [this] at hcb
        cases hcb
      rw [hlen] at hj
      omega
  · intro dm ds cm cs e hm hs
    rw [overallConfidence_eq]
    simp [wrapGatherResult, hm, hs]
  · intro dt ds ct cs e ht hs
    rw [overallConfidence_eq]
    simp [wrapGatherResult, ht, hs]
  · intro dm dt cm ct e hm ht
    rw [overallConfidence_eq]
    simp [wrapGatherResult, hm, ht]

/-- Witness for C2: a concrete completion order and a run in which exactly
the technical branch raises. -/
theorem C2_fanout_error_isolation_witness :
    SynthEvent.complete Branch.techB
      ∈ gatherTrace [Branch.techB, Branch.macroB, Branch.sentB]
    ∧ (0 : Nat) < 3
    ∧ overallConfidence (wrapGatherResult (.ok (sampleOpinion (4/5))))
        (wrapGatherResult (.error "technical analyst crashed"))
        (wrapGatherResult (.ok (sampleOpinion (3/5))))
      = (4/5 + 1/2 + 3/5) / 3 := by
  have H := C2_fanout_error_isolation
  have hperm : List.Perm [Branch.techB, Branch.macroB, Branch.sentB] allBranches := by
    decide
  refine ⟨(H.1 _ hperm).1 Branch.techB, ?_, ?_⟩
  · exact (H.1 _ hperm).2 3 0 (by decide) (by decide) rfl Branch.techB rfl
  · exact H.2.2.2.1 (sampleOpinion (4/5)) (sampleOpinion (3/5)) (4/5) (3/5)
      "technical analyst crashed" rfl rfl

/-- C6: within one `update_all_sources` run, the priority tiers are
dispatched strictly in the fixed order critical, high, medium, low: for any
registry with unique keys and any within-tier interleavings, every dispatch
of a medium-tier source occurs in the trace strictly after every dispatch of
a critical- or high-tier source. -/
theorem C6_update_all_tier_ordering (sources : List (String × DataSourceConfig))
    (sched : UpdatePriority → List String)
    (hN : (sources.map Prod.fst).Nodup)
    (hS : ValidSchedule sources sched)
    (i j : Nat)
    (hi : i < (updateAllDispatchTrace sched).length)
    (hj : j < (updateAllDispatchTrace sched).length)
    (hmed : (updateAllDispatchTrace sched)[i] ∈ enabledKeysByPriority sources .medium)
    (hch : (updateAllDispatchTrace sched)[j] ∈ enabledKeysByPriority sources .critical
        ∨ (updateAllDispatchTrace sched)[j] ∈ enabledKeysByPriority sources .high) :
    j < i := by
  have hgrp : ∀ p : UpdatePriority, ∀ k ∈ sched p, k ∈ enabledKeysByPriority sources p :=
    fun p k hk => (hS p).mem_iff.mp hk
  have hAB : ∀ k ∈ sched .critical ++ sched .high,
      k ∈ enabledKeysByPriority sources .critical
      ∨ k ∈ enabledKeysByPriority sources .high := by
    intro k hk
    rcases List.mem_append.mp hk with h | h
    · exact Or.inl (hgrp _ _ h)
    · exact Or.inr (hgrp _ _ h)
  have hT : updateAllDispatchTrace sched
      = ((sched .critical ++ sched .high) ++ sched .medium) ++ sched .low := by
    simp [updateAllDispatchTrace, List.append_assoc]
  simp only [hT] at hi hj hmed hch
  -- the medium dispatch sits at or after the end of the critical+high block
  have hiGE : (sched .critical ++ sched .high).length ≤ i := by
    rcases append_region _ _ i hi with ⟨hi1, _⟩ | ⟨hi1, hmem1⟩
    · rcases append_region _ _ i hi1 with ⟨hi2, hmem2⟩ | ⟨hi2, _⟩
      · exfalso
        have hE : ((((sched .critical ++ sched .high) ++ sched .medium) ++ sched .low))[i]
            = ((sched .critical ++ sched .high) ++ sched .medium)[i] :=
          List.getElem_append_left hi1
        have hE2 : ((sched .critical ++ sched .high) ++ sched .medium)[i]
            = (sched .critical ++ sched .high)[i] :=
          List.getElem_append_left hi2
        have hmem : (((sched .critical ++ sched .high) ++ sched .medium) ++ sched .low)[i]
            ∈ sched .critical ++ sched .high := by
          rw [hE, hE2]
          exact List.getElem_mem hi2
        rcases hAB _ hmem with h | h
        · cases enabledKeys_priority_eq sources hN _ _ _ hmed h
        · cases enabledKeys_priority_eq sources hN _ _ _ hmed h
      · exact hi2
    · exfalso
      have hmemD : (((sched .critical ++ sched .high) ++ sched .medium) ++ sched .low)[i]
          ∈ enabledKeysByPriority sources .low := hgrp _ _ hmem1
      cases enabledKeys_priority_eq sources hN _ _ _ hmed hmemD
  -- the critical or high dispatch sits before the end of that block
  have hjLT : j < (sched .critical ++ sched .high).length := by
    rcases append_region _ _ j hj with ⟨hj1, _⟩ | ⟨hj1, hjm1⟩
    · rcases append_region _ _ j hj1 with ⟨hj2, _⟩ | ⟨hj2, hjm2⟩
      · exact hj2
      · exfalso
        have hE : ((((sched .critical ++ sched .high) ++ sched .medium) ++ sched .low))[j]
            = ((sched .critical ++ sched .high) ++ sched .medium)[j] :=
          List.getElem_append_left hj1
        have hmemC : (((sched .critical ++ sched .high) ++ sched .medium) ++ sched .low)[j]
            ∈ enabledKeysByPriority sources .medium := by
          rw [hE]
          exact hgrp _ _ hjm2
        rcases hch with h | h
        · cases enabledKeys_priority_eq sources hN _ _ _ hmemC h
        · cases enabledKeys_priority_eq sources hN _ _ _ hmemC h
    · exfalso
      have hmemD : (((sched .critical ++ sched .high) ++ sched .medium) ++ sched .low)[j]
          ∈ enabledKeysByPriority sources .low := hgrp _ _ hjm1
      rcases hch with h | h
      · cases enabledKeys_priority_eq sources hN _ _ _ hmemD h
      · cases enabledKeys_priority_eq sources hN _ _ _ hmemD h
  omega

/-- Witness for C6 at the concrete registry sample: the medium dispatch at
position 2 follows the critical dispatch at position 0. -/
theorem C6_update_all_tier_ordering_witness : (0 : Nat) < 2 :=
  C6_update_all_tier_ordering sampleSources sampleSched (by decide)
    (fun _ => List.Perm.refl _) 2 0 (by decide) (by decide)
    (by decide) (Or.inl (by decide))

/-- C7 (evaluating the code at the failing input): for an enabled source
whose fetch yields one document while the store layer rejects the batch,
`add_documents` reports zero successes, one failure and a non-empty error
list — yet `update_source` records the run as a success: `success = True`,
`failed_updates` stays 0 and `successful_updates` becomes 1, because line
230 tests the truthiness of the returned statistics dictionary (always a
non-empty dictionary) instead of a boolean outcome, making the
`"Failed to add documents to RAG"` branch unreachable.  The zero-document
outcome is counted as a failure as the claim states, and neither outcome
disables the source. -/
theorem C7_store_failure_counted_successful :
    c7AddStats.successful = 0
    ∧ c7AddStats.failed = 1
    ∧ c7AddStats.errors ≠ []
    ∧ c7Run.1.success = true
    ∧ c7Run.2.2.1.failed_updates = 0
    ∧ c7Run.2.2.1.successful_updates = 1
    ∧ c7Run.2.1.enabled = true
    ∧ c7RunEmpty.1.success = false
    ∧ c7RunEmpty.2.2.1.failed_updates = 1
    ∧ c7RunEmpty.2.1.enabled = true := by
  refine ⟨rfl, rfl, by decide, rfl, rfl, rfl, rfl, rfl, rfl, rfl⟩

theorem technicalAnalyzeTry_ok (env : TechEnv) (d : OpinionDict)
    (h : technicalAnalyzeTry env = .ok d) :
    d.agent_name = some "Technical Analyst" ∧ d.confidence.isSome = true := by
  unfold technicalAnalyzeTry at h
  repeat
    first
      | exact ⟨rfl, rfl⟩
      | cases h
      | split at h

theorem macroAnalyzeTry_ok (env : MacroEnv) (d : OpinionDict)
    (h : macroAnalyzeTry env = .ok d) :
    d.agent_name = some "Crypto Macro Analyst" ∧ d.confidence.isSome = true := by
  unfold macroAnalyzeTry at h
  split at h
  · cases h
  · injection h with h
    subst h
    simp [formatCryptoOutput]

/-- C8 counterexample: when the technical analyst fully fails (both price
feeds and the model call raise), its catch-all returns the error opinion
with confidence 0.0, which is not in the claimed range [0.1, 0.3]. -/
theorem C8_counterexample :
    (technicalAnalyze techFailEnv).confidence = some 0
    ∧ ¬ ((1 : ℚ)/10 ≤ 0 ∧ (0 : ℚ) ≤ 3/10) :=
  ⟨rfl, by norm_num⟩

/-- C8 (amended): every specialist analyzer run returns an opinion
dictionary (with its agent name and a confidence) and never propagates an
exception — the whole body sits in a `try` whose catch-all returns a
dictionary; on a fully failed run the macro analyst falls back to
confidence 0.1 (inside [0.1, 0.3]) while the technical analyst falls back
to confidence 0.0. -/
theorem C8_analyzer_never_raises (q : String) (envT : TechEnv) (envM : MacroEnv) :
    ((technicalAnalyze envT).agent_name = some "Technical Analyst"
      ∧ ((technicalAnalyze envT).confidence).isSome = true)
    ∧ ((macroAnalyze q envM).agent_name = some "Crypto Macro Analyst"
      ∧ ((macroAnalyze q envM).confidence).isSome = true)
    ∧ (∀ e, technicalAnalyzeTry envT = .error e →
        (technicalAnalyze envT).confidence = some 0)
    ∧ (∀ e, macroAnalyzeTry envM = .error e →
        (macroAnalyze q envM).confidence = some (1/10)
        ∧ (1 : ℚ)/10 ≤ 1/10 ∧ (1 : ℚ)/10 ≤ 3/10) := by
  refine ⟨?_, ?_, ?_, ?_⟩
  · unfold technicalAnalyze
    cases h : technicalAnalyzeTry envT with
    | ok d => exact technicalAnalyzeTry_ok envT d h
    | error e => simp [technicalFallback]
  · unfold macroAnalyze
    cases h : macroAnalyzeTry envM with
    | ok d => exact macroAnalyzeTry_ok envM d h
    | error e => simp [macroFallbackOpinion]
  · intro e he
    unfold technicalAnalyze
    rw [he]
    rfl
  · intro e he
    unfold macroAnalyze
    rw [he]
    exact ⟨rfl, by norm_num, by norm_num⟩

/-- Witness for C8 (amended) at fully failing runs of both analysts. -/
theorem C8_analyzer_never_raises_witness :
    (technicalAnalyze techFailEnv).confidence = some 0
    ∧ (macroAnalyze "Should I buy now?" macroFailEnv).confidence = some (1/10) := by
  have H := C8_analyzer_never_raises "Should I buy now?" techFailEnv macroFailEnv
  exact ⟨H.2.2.1 "model call failed" rfl, (H.2.2.2 "translation crashed" rfl).1⟩

theorem firstKnown_contains (names cands : List String) (k : String)
    (h : firstKnown names cands = some k) : names.contains k = true := by
  induction cands with
  | nil => cases h
  | cons c rest ih =>
    unfold firstKnown at h
    by_cases hc : names.contains c = true
    · rw [if_pos hc] at h
      cases h
      exact hc
    · rw [if_neg hc] at h
      exact ih h

theorem resolveCollectionName_contains (names : List String) (n k : String)
    (h : resolveCollectionName names n = some k) : names.contains k = true := by
  unfold resolveCollectionName at h
  cases hm : lookupA n collectionNameMapping <;> simp only [hm] at h
  · by_cases hc : names.contains n = true
    · rw [if_pos hc] at h
      cases h
      exact hc
    · rw [if_neg hc] at h
      exact firstKnown_contains _ _ _ h
  · rename_i mapped
    by_cases hc₁ : names.contains mapped = true
    · rw [if_pos hc₁] at h
      cases h
      exact hc₁
    · rw [if_neg hc₁] at h
      by_cases hc₂ : names.contains n = true
      · rw [if_pos hc₂] at h
        cases h
        exact hc₂
      · rw [if_neg hc₂] at h
        exact firstKnown_contains _ _ _ h

theorem lookupA_of_mem_keys {E : Type} (l : List (String × E)) (k : String)
    (h : k ∈ l.map Prod.fst) : ∃ v, lookupA k l = some v := by
  induction l with
  | nil => simp at h
  | cons hd tl ih =>
    obtain ⟨k₁, v₁⟩ := hd
    by_cases hk : k₁ = k
    · exact ⟨v₁, by simp [lookupA, hk]⟩
    · have h' : k ∈ tl.map Prod.fst := by
        simp only [List.map_cons, List.mem_cons] at h
        rcases h with h'' | h''
        · exact absurd h''.symm hk
        · exact h''
      obtain ⟨v, hv⟩ := ih h'
      exact ⟨v, by simpa [lookupA, hk] using hv⟩

theorem getCollectionKey_eq_of_same_keys (st st' : RAGState) (n : String)
    (h : st'.collections.map Prod.fst = st.collections.map Prod.fst) :
    getCollectionKey st' n = getCollectionKey st n := by
  simp [getCollectionKey, h]

theorem chromaCollectionAdd_single_mem (c : Collection) (s : StoredDoc) :
    ((chromaCollectionAdd c [s]).entries.any fun e => e.id = s.id) = true := by
  unfold chromaCollectionAdd
  simp only [List.foldl_cons, List.foldl_nil]
  by_cases h : (c.entries.any fun e => e.id = s.id) = true
  · rw [if_pos h]
    exact h
  · rw [if_neg h]
    simp [List.any_append]

theorem chromaCollectionAdd_skip (c : Collection) (s : StoredDoc)
    (h : (c.entries.any fun e => e.id = s.id) = true) :
    chromaCollectionAdd c [s] = c := by
  unfold chromaCollectionAdd
  simp only [List.foldl_cons, List.foldl_nil]
  rw [if_pos h]

theorem addDocuments_single (st : RAGState) (embed : String → List ℚ)
    (d : RAGDocument) (collName key : String)
    (hid : d.id = none)
    (hkey : getCollectionKey st collName = some key) :
    addDocuments st chromaStore embed [d] collName
      = ({ total_documents := 1, successful := 1, failed := 0, errors := [],
           collection := collName },
         withCollections st (setA key
           (chromaCollectionAdd ((lookupA key st.collections).getD {})
             [storedOfDoc embed { d with id := some d.generate_id }])
           st.collections)) := by
  unfold addDocuments withCollections
  simp [hkey, hid, assignDocId, chunksOf, chunksOfGo, chromaStore]

/-- C9 counterexample: re-adding the same document (same id) to the store a
second time creates no duplicate entry, but the returned statistics still
count it as `successful = 1` — line 267 of `rag_service.py` increments the
counter for every submitted batch whose store call succeeds, including pure
duplicate-skip no-ops, so the claim that the counter is not incremented is
false. -/
theorem C9_counterexample :
    ((lookupA "crypto_data" c9Add2.2.collections).getD {}).entries.length = 1
    ∧ c9Add2.1.successful = 1
    ∧ c9Add2.1.total_documents = 1 :=
  ⟨rfl, rfl, rfl⟩

/-- C9 (amended): `RAGDocument.generate_id` is a deterministic function of
the pair (text, metadata), and re-submitting an already stored document
leaves every collection unchanged (no duplicate entry); the `successful`
counter of the returned statistics, however, still counts the re-submitted
document. -/
theorem C9_generate_id_deterministic_dedup (d₁ d₂ d : RAGDocument) (st : RAGState)
    (embed : String → List ℚ) (collName key : String)
    (hid : d.id = none)
    (hkey : getCollectionKey st collName = some key) :
    (d₁.text = d₂.text → d₁.metadata = d₂.metadata → d₁.generate_id = d₂.generate_id)
    ∧ (addDocuments st chromaStore embed [d] collName).1.successful = 1
    ∧ (addDocuments (addDocuments st chromaStore embed [d] collName).2 chromaStore embed
        [d] collName).2.collections
      = (addDocuments st chromaStore embed [d] collName).2.collections
    ∧ (addDocuments (addDocuments st chromaStore embed [d] collName).2 chromaStore embed
        [d] collName).1.successful = 1 := by
  have h₁ := addDocuments_single st embed d collName key hid hkey
  have hmem : key ∈ st.collections.map Prod.fst := by
    simpa using resolveCollectionName_contains _ _ _ hkey
  obtain ⟨w, hw⟩ := lookupA_of_mem_keys _ _ hmem
  have hkeys : (withCollections st (setA key
        (chromaCollectionAdd ((lookupA key st.collections).getD {})
          [storedOfDoc embed { d with id := some d.generate_id }])
        st.collections)).collections.map Prod.fst
      = st.collections.map Prod.fst :=
    mapFst_setA key _ w st.collections hw
  have hkey₂ : getCollectionKey
      (withCollections st (setA key
        (chromaCollectionAdd ((lookupA key st.collections).getD {})
          [storedOfDoc embed { d with id := some d.generate_id }])
        st.collections))
      collName = some key := by
    rw [getCollectionKey_eq_of_same_keys st _ _ hkeys]
    exact hkey
  have h₂ := addDocuments_single _ embed d collName key hid hkey₂
  have hlk : lookupA key (setA key (chromaCollectionAdd
        ((lookupA key st.collections).getD {})
        [storedOfDoc embed { d with id := some d.generate_id }]) st.collections)
      = some (chromaCollectionAdd ((lookupA key st.collections).getD {})
        [storedOfDoc embed { d with id := some d.generate_id }]) :=
    lookupA_setA_self _ _ _
  refine ⟨?_, ?_, ?_, ?_⟩
  · intro ht hm
    unfold RAGDocument.generate_id
    rw [ht, hm]
  · simp only [h₁]
  · simp only [h₁]
    rw [h₂]
    simp only [withCollections]
    simp only [hlk, Option.getD_some]
    rw [chromaCollectionAdd_skip _ _ (chromaCollectionAdd_single_mem _ _)]
    exact setA_self_of_lookupA _ _ _ hlk
  · simp only [h₁]
    rw [h₂]

/-- Witness for C9 (amended): the sample document added twice to the crypto
collection. -/
theorem C9_generate_id_deterministic_dedup_witness :
    sampleDoc.generate_id = (RAGDocument.mk sampleDoc.text sampleDoc.metadata
      (some [1]) none).generate_id
    ∧ c9Add1.1.successful = 1
    ∧ c9Add2.2.collections = c9Add1.2.collections
    ∧ c9Add2.1.successful = 1 := by
  have H := C9_generate_id_deterministic_dedup sampleDoc
    (RAGDocument.mk sampleDoc.text sampleDoc.metadata (some [1]) none) sampleDoc
    ragState0 zeroEmbed "crypto" "crypto_data" rfl rfl
  exact ⟨H.1 rfl rfl, H.2.1, H.2.2.1, H.2.2.2⟩

end MarketSense
